import Mathlib

/-!
Verification of the 3-player Kuhn poker equilibrium player
(`kuhn_3p_equilibrium_player.c`).

Shallow embedding conventions:
- C `double` values are modelled as `ℚ` (the validation checks and
  probability formulas are exact rational arithmetic on the inputs).
- The player's parameter array `params[NUM_PARAMS]` is modelled as a
  structure with one field per named slot.  Modelled from the spec: the
  header naming the slot indices is not part of the sources; the spec
  names six free slots (b11, b21, b32, c11, c33, c34) and four derived
  slots (b23, b33, b41, c21), and those ten slots are the ones any of
  the code in the sources reads or writes.
- `print_and_throw_error` aborts by unwinding; a function that may throw
  is modelled as returning `Option KuhnError × Params`: `(some e, p)`
  means the function threw error `e` with the parameter state `p` at the
  moment of the throw, `(none, p)` means it returned normally with final
  state `p`.
-/

namespace Kuhn3P

/-- Error causes of `print_and_throw_error` calls reachable from
`check_params`, one per distinct message string in the source. -/
inductive KuhnError
  | b21TooLarge
  | b11GtB21
  | b32TooLarge
  | c33TooSmall
  | c33TooLarge
  | subFamilyOutOfRange
  | paramsOutOfRange
deriving DecidableEq

/-- The player's parameter vector.  Six free slots (`b11`, `b21`, `b32`,
`c11`, `c33`, `c34`) and four derived slots (`b23`, `b33`, `b41`,
`c21`), each one `params[...]` array slot of the C player struct. -/
structure Params where
  b11 : ℚ
  b21 : ℚ
  b23 : ℚ
  b32 : ℚ
  b33 : ℚ
  b41 : ℚ
  c11 : ℚ
  c21 : ℚ
  c33 : ℚ
  c34 : ℚ
deriving DecidableEq

/-- Modelled from the spec: the header constant `NUM_SUB_FAMILIES` is not
in the sources; the spec describes exactly three sub-families (1, 2, 3). -/
def NUM_SUB_FAMILIES : Nat := 3

/-- `sub_family_number` (source lines 49-67), its loop unrolled.
Modelled from the spec: `SUB_FAMILY_DEFINING_PARAM_VALUES` comes from the
missing header; per the spec the defining values are 0 (sub-family 1) and
1/2 (sub-family 2).  The loop compares `c11` for exact equality against
each defining value in turn; afterwards, a value greater than the last
defining value (1/2) yields the illegal number `NUM_SUB_FAMILIES + 1`,
and anything else yields `NUM_SUB_FAMILIES`. -/
def sub_family_number (c11 : ℚ) : Nat :=
  if c11 = 0 then 1
  else if c11 = 1/2 then 2
  else if c11 > 1/2 then NUM_SUB_FAMILIES + 1
  else NUM_SUB_FAMILIES

/-- `check_family_1_params` (source lines 69-143): five inequality checks
in source order, each throwing a distinct error; only after all five pass
are the four derived slots written.  The state returned with a thrown
error is the state at the throw, which is the unmodified input because
every write is sequenced after the last check. -/
def check_family_1_params (p : Params) : Option KuhnError × Params :=
  if p.b21 > 1/4 then (some KuhnError.b21TooLarge, p)
  else if p.b11 > p.b21 then (some KuhnError.b11GtB21, p)
  else if p.b32 > (2 + 3 * p.b11 + 4 * p.b21) / 4 then (some KuhnError.b32TooLarge, p)
  else if p.c33 < 1/2 - p.b32 then (some KuhnError.c33TooSmall, p)
  else if p.c33 > 1/2 - p.b32 + (3 * p.b11 + 4 * p.b21) / 4 then
    (some KuhnError.c33TooLarge, p)
  else
    (none,
      { p with
          b23 := 0
          b33 := (1 + p.b11 + 2 * p.b21) / 2
          b41 := 2 * p.b11 + 2 * p.b21
          c21 := 1/2 })

/-- Every slot of the parameter vector lies in [0, 1]: the condition the
final loop of `check_params` (source lines 172-181) verifies slot by
slot. -/
def params_in_range (p : Params) : Prop :=
  0 ≤ p.b11 ∧ p.b11 ≤ 1 ∧ 0 ≤ p.b21 ∧ p.b21 ≤ 1 ∧ 0 ≤ p.b23 ∧ p.b23 ≤ 1 ∧
  0 ≤ p.b32 ∧ p.b32 ≤ 1 ∧ 0 ≤ p.b33 ∧ p.b33 ≤ 1 ∧ 0 ≤ p.b41 ∧ p.b41 ≤ 1 ∧
  0 ≤ p.c11 ∧ p.c11 ≤ 1 ∧ 0 ≤ p.c21 ∧ p.c21 ≤ 1 ∧ 0 ≤ p.c33 ∧ p.c33 ≤ 1 ∧
  0 ≤ p.c34 ∧ p.c34 ≤ 1

instance (p : Params) : Decidable (params_in_range p) := by
  unfold params_in_range; infer_instance

/-- The final range pass of `check_params` (source lines 172-181): throws
`paramsOutOfRange` when any slot lies outside [0, 1], leaving the
parameters unchanged either way (the loop only reads). -/
def range_check (p : Params) : Option KuhnError × Params :=
  if params_in_range p then (none, p) else (some KuhnError.paramsOutOfRange, p)

/-- `check_params` (source lines 145-183): dispatch on
`sub_family_number` of the distinguished slot `c11`
(`SUB_FAMILY_DEFINING_PARAM_INDEX`); sub-family 1 runs
`check_family_1_params`, sub-families 2 and 3 are commented-out no-ops,
any other number throws the sub-family error; then the final range pass
runs over all slots. -/
def check_params (p : Params) : Option KuhnError × Params :=
  let n := sub_family_number p.c11
  if n = 1 then
    let r := check_family_1_params p
    if r.1 = none then range_check r.2 else r
  else if n = 2 then range_check p
  else if n = 3 then range_check p
  else (some KuhnError.subFamilyOutOfRange, p)

/-- Modelled from the spec: the action-type enumeration of the external
game interface has exactly three values, in the fixed order fold, call,
raise; `NUM_ACTION_TYPES` is 3 and `a_fold = 0`, `a_call = 1`,
`a_raise = 2`. -/
def NUM_ACTION_TYPES : Nat := 3

/-- The inverse-CDF walk of `action` (source lines 462-473), its loop
unrolled for the three action types.  `pf`, `pc`, `pr` are
`probs[a_fold]`, `probs[a_call]`, `probs[a_raise]` and `r` is the
uniform draw; the result is the numeric value of the `enum ActionType`
counter `i` when the loop stops: 0 fold, 1 call, 2 raise, and
`NUM_ACTION_TYPES` (= 3, one past raise) when the loop exhausts without
breaking. -/
def sample_action (pf pc pr r : ℚ) : Nat :=
  if r ≤ pf then 0
  else if r - pf ≤ pc then 1
  else if r - pf - pc ≤ pr then 2
  else NUM_ACTION_TYPES

/-- Recorded action types of the external betting history (`a_fold`,
`a_call`, `a_raise`). -/
inductive AType
  | fold
  | call
  | raise
deriving DecidableEq

/-- The four card ranks of the 4-rank deck.  Modelled from the spec: the
header rank constants `JACK_RANK` .. are consecutive, so
`card_rank - JACK_RANK` is 0 for Jack, 1 for Queen, 2 for King, 3 for
Ace; the engines compare `card_rank` against Jack, Queen and King and
treat everything else as the Ace. -/
inductive Rank
  | jack
  | queen
  | king
  | ace
deriving DecidableEq

/-- `card_rank - JACK_RANK`: the row index into the constant table `A`. -/
def rankIndex : Rank → Fin 4
  | Rank.jack => 0
  | Rank.queen => 1
  | Rank.king => 2
  | Rank.ace => 3

/-- The part of the external `State` the engines read: the round-0 action
count `numActions[0]` and the round-0 recorded action types
`action[0][i].type`. -/
structure State where
  numActions0 : Nat
  act : Nat → AType

/-- A probability vector over the three action types:
`probs[a_fold]`, `probs[a_call]`, `probs[a_raise]`. -/
structure Probs where
  fold : ℚ
  call : ℚ
  raise : ℚ
deriving DecidableEq

/-- Modelled from the spec: the compiled-in constant tables of the
missing header (table `A` for seat 0, the fixed B- and C-constants and
the array `C4` for seats 1 and 2).  Their numeric values are not in the
sources, so the engines are parameterized over them. -/
structure Consts where
  A : Fin 4 → Fin 4 → ℚ
  B31 : ℚ
  B12 : ℚ
  B22 : ℚ
  B42 : ℚ
  B13 : ℚ
  B43 : ℚ
  B14 : ℚ
  B24 : ℚ
  B34 : ℚ
  B44 : ℚ
  C31 : ℚ
  C12 : ℚ
  C22 : ℚ
  C32 : ℚ
  C13 : ℚ
  C23 : ℚ
  C14 : ℚ
  C24 : ℚ
  C4 : Fin 4 → ℚ

/-- `action_probs_p0` (source lines 185-217): situation 1 when round 0
has no prior action (raise with probability `A[rank][0]`); otherwise
situation index 1 when `action[0][1]` is a call, 2 when `action[0][2]`
is a fold, else 3, with call probability `A[rank][situation_index]` and
no raise. -/
def action_probs_p0 (A : Fin 4 → Fin 4 → ℚ) (rank : Rank) (s : State) : Probs :=
  if s.numActions0 = 0 then
    { fold := 0
      call := 1 - A (rankIndex rank) 0
      raise := A (rankIndex rank) 0 }
  else
    let situation_index : Fin 4 :=
      if s.act 1 = AType.call then 1
      else if s.act 2 = AType.fold then 2
      else 3
    { fold := 1 - A (rankIndex rank) situation_index
      call := A (rankIndex rank) situation_index
      raise := 0 }

/-- `action_probs_p1` (source lines 219-299): situations 1 and 2 when
round 0 has exactly one prior action (1 when it was a call, raising with
the rank-indexed parameter; 2 otherwise), situation 3 when
`action[0][3]` is a fold, else situation 4; situations 2-4 call with the
rank-indexed parameter and never raise. -/
def action_probs_p1 (K : Consts) (ps : Params) (rank : Rank) (s : State) : Probs :=
  if s.numActions0 = 1 then
    if s.act 0 = AType.call then
      let param :=
        match rank with
        | Rank.jack => ps.b11
        | Rank.queen => ps.b21
        | Rank.king => K.B31
        | Rank.ace => ps.b41
      { fold := 0, call := 1 - param, raise := param }
    else
      let param :=
        match rank with
        | Rank.jack => K.B12
        | Rank.queen => K.B22
        | Rank.king => ps.b32
        | Rank.ace => K.B42
      { fold := 1 - param, call := param, raise := 0 }
  else
    if s.act 3 = AType.fold then
      let param :=
        match rank with
        | Rank.jack => K.B13
        | Rank.queen => ps.b23
        | Rank.king => ps.b33
        | Rank.ace => K.B43
      { fold := 1 - param, call := param, raise := 0 }
    else
      let param :=
        match rank with
        | Rank.jack => K.B14
        | Rank.queen => K.B24
        | Rank.king => K.B34
        | Rank.ace => K.B44
      { fold := 1 - param, call := param, raise := 0 }

/-- `action_probs_p2` (source lines 301-382): keyed off `action[0][0]`
and `action[0][1]`: situation 1 (call, call) raises with the
rank-indexed parameter; situation 2 (call, non-call), situation 3
(non-call, fold) and situation 4 (non-call, non-fold) call with the
rank-indexed parameter and never raise. -/
def action_probs_p2 (K : Consts) (ps : Params) (rank : Rank) (s : State) : Probs :=
  if s.act 0 = AType.call then
    if s.act 1 = AType.call then
      let param :=
        match rank with
        | Rank.jack => ps.c11
        | Rank.queen => ps.c21
        | Rank.king => K.C31
        | Rank.ace => K.C4 0
      { fold := 0, call := 1 - param, raise := param }
    else
      let param :=
        match rank with
        | Rank.jack => K.C12
        | Rank.queen => K.C22
        | Rank.king => K.C32
        | Rank.ace => K.C4 1
      { fold := 1 - param, call := param, raise := 0 }
  else
    if s.act 1 = AType.fold then
      let param :=
        match rank with
        | Rank.jack => K.C13
        | Rank.queen => K.C23
        | Rank.king => ps.c33
        | Rank.ace => K.C4 2
      { fold := 1 - param, call := param, raise := 0 }
    else
      let param :=
        match rank with
        | Rank.jack => K.C14
        | Rank.queen => K.C24
        | Rank.king => ps.c34
        | Rank.ace => K.C4 3
      { fold := 1 - param, call := param, raise := 0 }

/-- The seat dispatch of `action_probs` (source lines 479-501): seat 0
uses `action_probs_p0`, seat 1 `action_probs_p1`, every other seat
`action_probs_p2`. -/
def action_probs (K : Consts) (ps : Params) (seat : Nat) (rank : Rank)
    (s : State) : Probs :=
  if seat = 0 then action_probs_p0 K.A rank s
  else if seat = 1 then action_probs_p1 K ps rank s
  else action_probs_p2 K ps rank s

/-- All entries of a probability vector lie in [0, 1] and sum to 1. -/
def probs_valid (q : Probs) : Prop :=
  0 ≤ q.fold ∧ q.fold ≤ 1 ∧ 0 ≤ q.call ∧ q.call ≤ 1 ∧
  0 ≤ q.raise ∧ q.raise ≤ 1 ∧ q.fold + q.call + q.raise = 1

instance (q : Probs) : Decidable (probs_valid q) := by
  unfold probs_valid; infer_instance

/-- Every entry of the constant tables lies in [0, 1]. -/
def consts_in_range (K : Consts) : Prop :=
  (∀ i j, 0 ≤ K.A i j ∧ K.A i j ≤ 1) ∧
  (0 ≤ K.B31 ∧ K.B31 ≤ 1) ∧ (0 ≤ K.B12 ∧ K.B12 ≤ 1) ∧
  (0 ≤ K.B22 ∧ K.B22 ≤ 1) ∧ (0 ≤ K.B42 ∧ K.B42 ≤ 1) ∧
  (0 ≤ K.B13 ∧ K.B13 ≤ 1) ∧ (0 ≤ K.B43 ∧ K.B43 ≤ 1) ∧
  (0 ≤ K.B14 ∧ K.B14 ≤ 1) ∧ (0 ≤ K.B24 ∧ K.B24 ≤ 1) ∧
  (0 ≤ K.B34 ∧ K.B34 ≤ 1) ∧ (0 ≤ K.B44 ∧ K.B44 ≤ 1) ∧
  (0 ≤ K.C31 ∧ K.C31 ≤ 1) ∧ (0 ≤ K.C12 ∧ K.C12 ≤ 1) ∧
  (0 ≤ K.C22 ∧ K.C22 ≤ 1) ∧ (0 ≤ K.C32 ∧ K.C32 ≤ 1) ∧
  (0 ≤ K.C13 ∧ K.C13 ≤ 1) ∧ (0 ≤ K.C23 ∧ K.C23 ≤ 1) ∧
  (0 ≤ K.C14 ∧ K.C14 ≤ 1) ∧ (0 ≤ K.C24 ∧ K.C24 ≤ 1) ∧
  (∀ j, 0 ≤ K.C4 j ∧ K.C4 j ≤ 1)

instance (K : Consts) : Decidable (consts_in_range K) := by
  unfold consts_in_range; infer_instance

/-! Helper lemmas and concrete inputs. -/

/-- Closed form of the error component of `check_family_1_params`: the
five checks run in source order and the first failing one determines the
thrown error. -/
lemma check_family_1_fst (p : Params) :
    (check_family_1_params p).1 =
      if p.b21 > 1/4 then some KuhnError.b21TooLarge
      else if p.b11 > p.b21 then some KuhnError.b11GtB21
      else if p.b32 > (2 + 3 * p.b11 + 4 * p.b21) / 4 then some KuhnError.b32TooLarge
      else if p.c33 < 1/2 - p.b32 then some KuhnError.c33TooSmall
      else if p.c33 > 1/2 - p.b32 + (3 * p.b11 + 4 * p.b21) / 4 then
        some KuhnError.c33TooLarge
      else none := by
  unfold check_family_1_params
  split_ifs <;> rfl

/-- A probability vector of the "raise with probability `p`" shape is
valid when `p` lies in [0, 1]. -/
lemma probs_valid_raise_shape {p : ℚ} (h0 : 0 ≤ p) (h1 : p ≤ 1) :
    probs_valid { fold := 0, call := 1 - p, raise := p } := by
  unfold probs_valid
  dsimp only
  refine ⟨le_refl 0, by norm_num, by linarith, by linarith, h0, h1, by ring⟩

/-- A probability vector of the "call with probability `p`" shape is
valid when `p` lies in [0, 1]. -/
lemma probs_valid_call_shape {p : ℚ} (h0 : 0 ≤ p) (h1 : p ≤ 1) :
    probs_valid { fold := 1 - p, call := p, raise := 0 } := by
  unfold probs_valid
  dsimp only
  refine ⟨by linarith, by linarith, h0, h1, le_refl 0, by norm_num, by ring⟩

/-- A baseline parameter vector that is valid for sub-family 1: `c11 = 0`
and the five inequalities hold, with every slot in [0, 1]. -/
def baseP : Params :=
  { b11 := 0, b21 := 0, b23 := 0, b32 := 0, b33 := 0, b41 := 0,
    c11 := 0, c21 := 0, c33 := 1/2, c34 := 0 }

/-- The baseline with a free slot (`c34`) pushed outside [0, 1]. -/
def badP : Params := { baseP with c34 := 2 }

/-- The baseline with the distinguished slot `c11` negative. -/
def negC11P : Params := { baseP with c11 := -(1/4) }

/-- The baseline with the distinguished slot `c11` above 1/2. -/
def bigC11P : Params := { baseP with c11 := 3/4 }

/-- The baseline with `b21` violating the first sub-family-1
inequality. -/
def famErrP : Params := { baseP with b21 := 1/2 }

/-- The baseline with a derived slot changed and all free slots kept. -/
def baseC21P : Params := { baseP with c21 := 1 }

/-- A concrete constant-table assignment with every entry in [0, 1]. -/
def K0 : Consts :=
  { A := fun _ _ => 1/2,
    B31 := 1/2, B12 := 1/2, B22 := 1/2, B42 := 1/2,
    B13 := 1/2, B43 := 1/2, B14 := 1/2, B24 := 1/2,
    B34 := 1/2, B44 := 1/2,
    C31 := 1/2, C12 := 1/2, C22 := 1/2, C32 := 1/2,
    C13 := 1/2, C23 := 1/2, C14 := 1/2, C24 := 1/2,
    C4 := fun _ => 1/2 }

/-- A concrete assignment for the seat-0 table `A` alone. -/
def tableA0 : Fin 4 → Fin 4 → ℚ := fun _ _ => 1/3

/-- An empty round-0 betting history. -/
def emptyState : State := { numActions0 := 0, act := fun _ => AType.call }

/-- A round-0 history whose second recorded action is a call. -/
def sit2State : State := { numActions0 := 3, act := fun _ => AType.call }

/-- A round-0 history whose second action is a raise and third a fold. -/
def sit3State : State :=
  { numActions0 := 3,
    act := fun n => if n = 2 then AType.fold else AType.raise }

/-- A round-0 history of raises only. -/
def sit4State : State := { numActions0 := 3, act := fun _ => AType.raise }

/-- When the final range pass returns normally, the parameters it
returns are in range. -/
lemma range_check_none (q : Params) (h : (range_check q).1 = none) :
    params_in_range (range_check q).2 := by
  unfold range_check at h ⊢
  split_ifs at h ⊢ with hq
  exact hq

/-- Whenever `check_params` returns normally, the parameter vector it
returns is in range: every normal return path ends in the final range
pass. -/
lemma check_params_none (p : Params) (h : (check_params p).1 = none) :
    params_in_range (check_params p).2 := by
  simp only [check_params] at h ⊢
  split_ifs at h ⊢ with h1 h2 h3 h4
  · exact range_check_none _ h
  · exact absurd h h2
  · exact range_check_none _ h
  · exact range_check_none _ h

/-- Validity of the seat-0 probability vector from bounds on table
`A`. -/
lemma action_probs_p0_valid (A : Fin 4 → Fin 4 → ℚ)
    (hA : ∀ i j, 0 ≤ A i j ∧ A i j ≤ 1) (rank : Rank) (s : State) :
    probs_valid (action_probs_p0 A rank s) := by
  unfold action_probs_p0
  split_ifs
  · exact probs_valid_raise_shape (hA _ _).1 (hA _ _).2
  all_goals exact probs_valid_call_shape (hA _ _).1 (hA _ _).2

/-- Validity of the seat-1 probability vector from bounds on the
constants and the validated parameters. -/
lemma action_probs_p1_valid (K : Consts) (ps : Params)
    (hK : consts_in_range K) (hp : params_in_range ps) (rank : Rank)
    (s : State) : probs_valid (action_probs_p1 K ps rank s) := by
  obtain ⟨hA, ⟨hB31a, hB31b⟩, ⟨hB12a, hB12b⟩, ⟨hB22a, hB22b⟩, ⟨hB42a, hB42b⟩,
    ⟨hB13a, hB13b⟩, ⟨hB43a, hB43b⟩, ⟨hB14a, hB14b⟩, ⟨hB24a, hB24b⟩,
    ⟨hB34a, hB34b⟩, ⟨hB44a, hB44b⟩, ⟨hC31a, hC31b⟩, ⟨hC12a, hC12b⟩,
    ⟨hC22a, hC22b⟩, ⟨hC32a, hC32b⟩, ⟨hC13a, hC13b⟩, ⟨hC23a, hC23b⟩,
    ⟨hC14a, hC14b⟩, ⟨hC24a, hC24b⟩, hC4⟩ := hK
  obtain ⟨hb11a, hb11b, hb21a, hb21b, hb23a, hb23b, hb32a, hb32b, hb33a, hb33b,
    hb41a, hb41b, hc11a, hc11b, hc21a, hc21b, hc33a, hc33b, hc34a, hc34b⟩ := hp
  unfold action_probs_p1
  cases rank
  · split_ifs
    · exact probs_valid_raise_shape hb11a hb11b
    · exact probs_valid_call_shape hB12a hB12b
    · exact probs_valid_call_shape hB13a hB13b
    · exact probs_valid_call_shape hB14a hB14b
  · split_ifs
    · exact probs_valid_raise_shape hb21a hb21b
    · exact probs_valid_call_shape hB22a hB22b
    · exact probs_valid_call_shape hb23a hb23b
    · exact probs_valid_call_shape hB24a hB24b
  · split_ifs
    · exact probs_valid_raise_shape hB31a hB31b
    · exact probs_valid_call_shape hb32a hb32b
    · exact probs_valid_call_shape hb33a hb33b
    · exact probs_valid_call_shape hB34a hB34b
  · split_ifs
    · exact probs_valid_raise_shape hb41a hb41b
    · exact probs_valid_call_shape hB42a hB42b
    · exact probs_valid_call_shape hB43a hB43b
    · exact probs_valid_call_shape hB44a hB44b

/-- Validity of the seat-2 probability vector from bounds on the
constants and the validated parameters. -/
lemma action_probs_p2_valid (K : Consts) (ps : Params)
    (hK : consts_in_range K) (hp : params_in_range ps) (rank : Rank)
    (s : State) : probs_valid (action_probs_p2 K ps rank s) := by
  obtain ⟨hA, ⟨hB31a, hB31b⟩, ⟨hB12a, hB12b⟩, ⟨hB22a, hB22b⟩, ⟨hB42a, hB42b⟩,
    ⟨hB13a, hB13b⟩, ⟨hB43a, hB43b⟩, ⟨hB14a, hB14b⟩, ⟨hB24a, hB24b⟩,
    ⟨hB34a, hB34b⟩, ⟨hB44a, hB44b⟩, ⟨hC31a, hC31b⟩, ⟨hC12a, hC12b⟩,
    ⟨hC22a, hC22b⟩, ⟨hC32a, hC32b⟩, ⟨hC13a, hC13b⟩, ⟨hC23a, hC23b⟩,
    ⟨hC14a, hC14b⟩, ⟨hC24a, hC24b⟩, hC4⟩ := hK
  obtain ⟨hb11a, hb11b, hb21a, hb21b, hb23a, hb23b, hb32a, hb32b, hb33a, hb33b,
    hb41a, hb41b, hc11a, hc11b, hc21a, hc21b, hc33a, hc33b, hc34a, hc34b⟩ := hp
  unfold action_probs_p2
  cases rank
  · split_ifs
    · exact probs_valid_raise_shape hc11a hc11b
    · exact probs_valid_call_shape hC12a hC12b
    · exact probs_valid_call_shape hC13a hC13b
    · exact probs_valid_call_shape hC14a hC14b
  · split_ifs
    · exact probs_valid_raise_shape hc21a hc21b
    · exact probs_valid_call_shape hC22a hC22b
    · exact probs_valid_call_shape hC23a hC23b
    · exact probs_valid_call_shape hC24a hC24b
  · split_ifs
    · exact probs_valid_raise_shape hC31a hC31b
    · exact probs_valid_call_shape hC32a hC32b
    · exact probs_valid_call_shape hc33a hc33b
    · exact probs_valid_call_shape hc34a hc34b
  · split_ifs
    · exact probs_valid_raise_shape (hC4 0).1 (hC4 0).2
    · exact probs_valid_call_shape (hC4 1).1 (hC4 1).2
    · exact probs_valid_call_shape (hC4 2).1 (hC4 2).2
    · exact probs_valid_call_shape (hC4 3).1 (hC4 3).2

/-! Claim theorems. -/

/-- C1: for every parameter vector classified into sub-family 1
(`c11 = 0`) whose free parameters satisfy all five sub-family-1
inequalities, validation (`check_family_1_params`) succeeds and
afterwards the four derived slots equal their closed forms exactly:
`b23 = 0`, `b33 = (1 + b11 + 2*b21)/2`, `b41 = 2*b11 + 2*b21`,
`c21 = 1/2`. -/
theorem claim_C1 (p : Params) (hc : p.c11 = 0)
    (h1 : p.b21 ≤ 1/4) (h2 : p.b11 ≤ p.b21)
    (h3 : p.b32 ≤ (2 + 3 * p.b11 + 4 * p.b21) / 4)
    (h4 : 1/2 - p.b32 ≤ p.c33)
    (h5 : p.c33 ≤ 1/2 - p.b32 + (3 * p.b11 + 4 * p.b21) / 4) :
    sub_family_number p.c11 = 1 ∧
    (check_family_1_params p).1 = none ∧
    (check_family_1_params p).2.b23 = 0 ∧
    (check_family_1_params p).2.b33 = (1 + p.b11 + 2 * p.b21) / 2 ∧
    (check_family_1_params p).2.b41 = 2 * p.b11 + 2 * p.b21 ∧
    (check_family_1_params p).2.c21 = 1/2 := by
  have hck :
      check_family_1_params p =
        (none,
          { p with
              b23 := 0
              b33 := (1 + p.b11 + 2 * p.b21) / 2
              b41 := 2 * p.b11 + 2 * p.b21
              c21 := 1/2 }) := by
    unfold check_family_1_params
    rw [if_neg (not_lt.2 h1), if_neg (not_lt.2 h2), if_neg (not_lt.2 h3),
      if_neg (not_lt.2 h4), if_neg (not_lt.2 h5)]
  rw [hck]
  exact ⟨by simp [sub_family_number, hc], rfl, rfl, rfl, rfl, rfl⟩

/-- Witness for C1 at the concrete baseline vector. -/
theorem claim_C1_witness :
    sub_family_number baseP.c11 = 1 ∧
    (check_family_1_params baseP).1 = none ∧
    (check_family_1_params baseP).2.b23 = 0 ∧
    (check_family_1_params baseP).2.b33 = (1 + baseP.b11 + 2 * baseP.b21) / 2 ∧
    (check_family_1_params baseP).2.b41 = 2 * baseP.b11 + 2 * baseP.b21 ∧
    (check_family_1_params baseP).2.c21 = 1/2 :=
  claim_C1 baseP (by norm_num [baseP]) (by norm_num [baseP])
    (by norm_num [baseP]) (by norm_num [baseP]) (by norm_num [baseP])
    (by norm_num [baseP])

/-- C2: sub-family-1 validation checks the five inequalities in source
order — b21 ≤ 1/4, b11 ≤ b21, b32 ≤ (2 + 3*b11 + 4*b21)/4,
c33 ≥ 1/2 - b32, c33 ≤ 1/2 - b32 + (3*b11 + 4*b21)/4 — and the first
violated one determines the constraint-violation error thrown, checked
before any later inequality. -/
theorem claim_C2 (p : Params) :
    (check_family_1_params p).1 =
      if p.b21 > 1/4 then some KuhnError.b21TooLarge
      else if p.b11 > p.b21 then some KuhnError.b11GtB21
      else if p.b32 > (2 + 3 * p.b11 + 4 * p.b21) / 4 then some KuhnError.b32TooLarge
      else if p.c33 < 1/2 - p.b32 then some KuhnError.c33TooSmall
      else if p.c33 > 1/2 - p.b32 + (3 * p.b11 + 4 * p.b21) / 4 then
        some KuhnError.c33TooLarge
      else none :=
  check_family_1_fst p

/-- C3: the sub-family classifier returns 1 when `c11` is exactly 0, 2
when it is exactly 1/2, the out-of-range sentinel (`NUM_SUB_FAMILIES + 1`
= 4) when it is strictly greater than 1/2, and 3 otherwise; in
particular 0 ↦ 1, 1/2 ↦ 2, 1/4 ↦ 3, 3/4 ↦ sentinel. -/
theorem claim_C3 :
    sub_family_number 0 = 1 ∧ sub_family_number (1/2) = 2 ∧
    sub_family_number (1/4) = 3 ∧
    sub_family_number (3/4) = NUM_SUB_FAMILIES + 1 ∧
    ∀ c : ℚ, sub_family_number c =
      if c = 0 then 1
      else if c = 1/2 then 2
      else if c > 1/2 then NUM_SUB_FAMILIES + 1
      else NUM_SUB_FAMILIES := by
  refine ⟨?_, ?_, ?_, ?_, fun c => rfl⟩
  · norm_num [sub_family_number, NUM_SUB_FAMILIES]
  · norm_num [sub_family_number, NUM_SUB_FAMILIES]
  · norm_num [sub_family_number, NUM_SUB_FAMILIES]
  · norm_num [sub_family_number, NUM_SUB_FAMILIES]

/-- C5 counterexample: the claim says the boundary draw r = 0 selects
"call" for the vector (0, 3/10, 7/10); the sampler in fact stops at the
first index with r ≤ probs[i], and 0 ≤ 0 holds at fold, so it selects
fold (0), not call (1). -/
theorem claim_C5_counterexample :
    sample_action 0 (3/10) (7/10) 0 = 0 ∧
    sample_action 0 (3/10) (7/10) 0 ≠ 1 :=
  ⟨by norm_num [sample_action], by norm_num [sample_action]⟩

/-- C5 (amended): for the probability vector (0, 3/10, 7/10) over
(fold, call, raise), the sampler selects call for r = 1/5, raise for
r = 9/10, and fold — not call — for the boundary draw r = 0 (the walk
stops at the first index where r ≤ that entry's probability, and
0 ≤ 0). -/
theorem claim_C5 :
    sample_action 0 (3/10) (7/10) (1/5) = 1 ∧
    sample_action 0 (3/10) (7/10) (9/10) = 2 ∧
    sample_action 0 (3/10) (7/10) 0 = 0 := by
  refine ⟨?_, ?_, ?_⟩ <;> norm_num [sample_action]

/-- C6 counterexample: the claim says an exhausted walk returns the last
action type, raise (2); at the vector (3/10, 3/10, 3/10), which sums
under the in-range draw r = 19/20, the loop counter instead runs past
the last action type and the sampler returns 3, not 2. -/
theorem claim_C6_counterexample :
    (0:ℚ) ≤ 19/20 ∧ (19/20:ℚ) < 1 ∧ (3/10:ℚ) + 3/10 + 3/10 < 19/20 ∧
    sample_action (3/10) (3/10) (3/10) (19/20) = 3 ∧
    sample_action (3/10) (3/10) (3/10) (19/20) ≠ 2 := by
  refine ⟨by norm_num, by norm_num, by norm_num, ?_, ?_⟩ <;>
    norm_num [sample_action, NUM_ACTION_TYPES]

/-- C6 (amended): for every probability vector with non-negative entries
and every draw r in [0,1), if the walk over (fold, call, raise) exhausts
all three entries without selecting one (the probabilities summing under
r), the sampler returns the out-of-range action-type value
`NUM_ACTION_TYPES` (= 3, one past raise), not raise. -/
theorem claim_C6 (pf pc pr r : ℚ) (hf : 0 ≤ pf) (hc : 0 ≤ pc) (hp : 0 ≤ pr)
    (hr0 : 0 ≤ r) (hr1 : r < 1) (hsum : pf + pc + pr < r) :
    sample_action pf pc pr r = NUM_ACTION_TYPES := by
  unfold sample_action
  rw [if_neg (not_le.2 (show pf < r by linarith)),
    if_neg (not_le.2 (show pc < r - pf by linarith)),
    if_neg (not_le.2 (show pr < r - pf - pc by linarith))]

/-- Witness for C6 at a concrete under-summing vector and draw. -/
theorem claim_C6_witness :
    sample_action (3/10) (3/10) (3/10) (47/50) = NUM_ACTION_TYPES :=
  claim_C6 (3/10) (3/10) (3/10) (47/50) (by norm_num) (by norm_num)
    (by norm_num) (by norm_num) (by norm_num) (by norm_num)

/-- A `c11` above 1/2 classifies as the illegal sub-family number and
`check_params` throws the sub-family error with the parameters
unmodified. -/
lemma check_params_c11_big (p : Params) (h : p.c11 > 1/2) :
    check_params p = (some KuhnError.subFamilyOutOfRange, p) := by
  have h0 : ¬ p.c11 = 0 := by intro e; rw [e] at h; norm_num at h
  have h2 : ¬ p.c11 = 1/2 := by intro e; rw [e] at h; exact lt_irrefl _ h
  have hs : sub_family_number p.c11 = 4 := by
    unfold sub_family_number
    rw [if_neg h0, if_neg h2, if_pos h]
    norm_num [NUM_SUB_FAMILIES]
  unfold check_params
  rw [hs]
  rfl

/-- A negative `c11` classifies as sub-family 3, whose check is a no-op,
and `check_params` then throws the range error in the final pass. -/
lemma check_params_c11_neg (p : Params) (h : p.c11 < 0) :
    (check_params p).1 = some KuhnError.paramsOutOfRange := by
  have h0 : ¬ p.c11 = 0 := by intro e; rw [e] at h; norm_num at h
  have h2 : ¬ p.c11 = 1/2 := by intro e; rw [e] at h; norm_num at h
  have h3 : ¬ p.c11 > 1/2 := by push_neg; linarith
  have hs : sub_family_number p.c11 = 3 := by
    unfold sub_family_number
    rw [if_neg h0, if_neg h2, if_neg h3]
    rfl
  have hnr : ¬ params_in_range p := by
    intro hin
    obtain ⟨_, _, _, _, _, _, _, _, _, _, _, _, hc, _⟩ := hin
    linarith
  unfold check_params
  rw [hs]
  show (range_check p).1 = _
  unfold range_check
  rw [if_neg hnr]

/-- C7 counterexample: the claim says every `c11` outside [0, 1/2] —
including negative values — fails validation with the
sub-family-classification error; at `c11 = -1/4` the classifier instead
returns sub-family 3 and validation fails the final range pass with the
range-violation error. -/
theorem claim_C7_counterexample :
    negC11P.c11 < 0 ∧
    sub_family_number negC11P.c11 = 3 ∧
    (check_params negC11P).1 = some KuhnError.paramsOutOfRange ∧
    (check_params negC11P).1 ≠ some KuhnError.subFamilyOutOfRange := by
  have hneg : negC11P.c11 < 0 := by norm_num [negC11P, baseP]
  have h1 : (check_params negC11P).1 = some KuhnError.paramsOutOfRange :=
    check_params_c11_neg negC11P hneg
  refine ⟨hneg, ?_, h1, ?_⟩
  · norm_num [sub_family_number, negC11P, baseP, NUM_SUB_FAMILIES]
  · rw [h1]
    intro hcontra
    exact KuhnError.noConfusion (Option.some.inj hcontra)

/-- C7 (amended): a parameter vector whose `c11` is strictly greater
than 1/2 fails validation with the sub-family-classification error
before any inequality or range check, with the parameters unmodified; a
`c11` strictly less than 0 is instead classified as sub-family 3 (whose
check is a no-op) and validation fails the final range pass with the
range-violation error. -/
theorem claim_C7 (p : Params) :
    (p.c11 > 1/2 → check_params p = (some KuhnError.subFamilyOutOfRange, p)) ∧
    (p.c11 < 0 → (check_params p).1 = some KuhnError.paramsOutOfRange) :=
  ⟨check_params_c11_big p, check_params_c11_neg p⟩

/-- Witness for C7 at concrete out-of-range `c11` values on both
sides. -/
theorem claim_C7_witness :
    check_params bigC11P = (some KuhnError.subFamilyOutOfRange, bigC11P) ∧
    (check_params negC11P).1 = some KuhnError.paramsOutOfRange :=
  ⟨(claim_C7 bigC11P).1 (by norm_num [bigC11P, baseP]),
   (claim_C7 negC11P).2 (by norm_num [negC11P, baseP])⟩

/-- C4: for every seat, every card rank and every betting history
(reachable or not), given a validated parameter vector (all entries in
[0, 1]) and the constant tables in [0, 1], the probability vector the
seat's decision engine produces has all three entries in [0, 1] and the
entries sum to 1 (exactly, in the rational model). -/
theorem claim_C4 (K : Consts) (ps : Params) (seat : Nat) (rank : Rank)
    (s : State) (hK : consts_in_range K) (hp : params_in_range ps) :
    probs_valid (action_probs K ps seat rank s) := by
  unfold action_probs
  split_ifs
  · exact action_probs_p0_valid K.A hK.1 rank s
  · exact action_probs_p1_valid K ps hK hp rank s
  · exact action_probs_p2_valid K ps hK hp rank s

/-- Witness for C4 at a concrete constant table, the baseline parameter
vector, seat 0, the Jack and the empty history. -/
theorem claim_C4_witness :
    probs_valid (action_probs K0 baseP 0 Rank.jack emptyState) :=
  claim_C4 K0 baseP 0 Rank.jack emptyState
    (by norm_num [consts_in_range, K0]) (by norm_num [params_in_range, baseP])

/-- C8: whenever `check_params` returns normally, every slot of the
returned parameter vector lies in [0, 1]; and the final pass
(`range_check`, run after the sub-family-specific checks on every normal
path) fails with the range-violation error exactly when some slot lies
outside [0, 1]. -/
theorem claim_C8 (p : Params) :
    ((check_params p).1 = none → params_in_range (check_params p).2) ∧
    (∀ q : Params, ¬ params_in_range q →
      (range_check q).1 = some KuhnError.paramsOutOfRange) ∧
    (∀ q : Params, params_in_range q → range_check q = (none, q)) := by
  refine ⟨check_params_none p, fun q hq => ?_, fun q hq => ?_⟩
  · unfold range_check
    rw [if_neg hq]
  · unfold range_check
    rw [if_pos hq]

/-- Witness for C8 at the baseline vector and an out-of-range vector. -/
theorem claim_C8_witness :
    params_in_range (check_params baseP).2 ∧
    (range_check badP).1 = some KuhnError.paramsOutOfRange ∧
    range_check baseP = (none, baseP) :=
  ⟨(claim_C8 baseP).1
      (by norm_num [check_params, sub_family_number, check_family_1_params,
        range_check, params_in_range, baseP]),
   (claim_C8 baseP).2.1 badP (by norm_num [params_in_range, badP, baseP]),
   (claim_C8 baseP).2.2 baseP (by norm_num [params_in_range, baseP])⟩

/-- C9: the seat-0 engine classifies round 0 as situation 1 when it has
no prior action (fold 0, raise `A[rank][0]`, call the complement);
otherwise situation 2 when the 2nd recorded action is a call, situation
3 when the 3rd recorded action is a fold, situation 4 otherwise, each
with raise 0, call `A[rank][situation index]` (indices 1, 2, 3) and fold
the complement. -/
theorem claim_C9 (A : Fin 4 → Fin 4 → ℚ) (rank : Rank) (s : State) :
    (s.numActions0 = 0 →
      action_probs_p0 A rank s =
        { fold := 0, call := 1 - A (rankIndex rank) 0,
          raise := A (rankIndex rank) 0 }) ∧
    (s.numActions0 ≠ 0 → s.act 1 = AType.call →
      action_probs_p0 A rank s =
        { fold := 1 - A (rankIndex rank) 1, call := A (rankIndex rank) 1,
          raise := 0 }) ∧
    (s.numActions0 ≠ 0 → s.act 1 ≠ AType.call → s.act 2 = AType.fold →
      action_probs_p0 A rank s =
        { fold := 1 - A (rankIndex rank) 2, call := A (rankIndex rank) 2,
          raise := 0 }) ∧
    (s.numActions0 ≠ 0 → s.act 1 ≠ AType.call → s.act 2 ≠ AType.fold →
      action_probs_p0 A rank s =
        { fold := 1 - A (rankIndex rank) 3, call := A (rankIndex rank) 3,
          raise := 0 }) := by
  refine ⟨fun h0 => ?_, fun h0 h1 => ?_, fun h0 h1 h2 => ?_,
    fun h0 h1 h2 => ?_⟩ <;> unfold action_probs_p0
  · rw [if_pos h0]
  · rw [if_neg h0]
    dsimp only
    rw [if_pos h1]
  · rw [if_neg h0]
    dsimp only
    rw [if_neg h1, if_pos h2]
  · rw [if_neg h0]
    dsimp only
    rw [if_neg h1, if_neg h2]

/-- Witness for C9 at a concrete table and one history per situation. -/
theorem claim_C9_witness :
    action_probs_p0 tableA0 Rank.jack emptyState =
      { fold := 0, call := 1 - tableA0 (rankIndex Rank.jack) 0,
        raise := tableA0 (rankIndex Rank.jack) 0 } ∧
    action_probs_p0 tableA0 Rank.jack sit2State =
      { fold := 1 - tableA0 (rankIndex Rank.jack) 1,
        call := tableA0 (rankIndex Rank.jack) 1, raise := 0 } ∧
    action_probs_p0 tableA0 Rank.jack sit3State =
      { fold := 1 - tableA0 (rankIndex Rank.jack) 2,
        call := tableA0 (rankIndex Rank.jack) 2, raise := 0 } ∧
    action_probs_p0 tableA0 Rank.jack sit4State =
      { fold := 1 - tableA0 (rankIndex Rank.jack) 3,
        call := tableA0 (rankIndex Rank.jack) 3, raise := 0 } :=
  ⟨(claim_C9 tableA0 Rank.jack emptyState).1 rfl,
   (claim_C9 tableA0 Rank.jack sit2State).2.1 (by decide) rfl,
   (claim_C9 tableA0 Rank.jack sit3State).2.2.1 (by decide) (by decide)
     (by decide),
   (claim_C9 tableA0 Rank.jack sit4State).2.2.2 (by decide) (by decide)
     (by decide)⟩

/-- C10: sub-family-1 validation is atomic: its five inequality checks
read only free slots and complete before any derived slot is written, so
a constraint-violation throw leaves the parameter vector unmodified, and
even on success the six free slots (b11, b21, b32, c11, c33, c34) are
never written. -/
theorem claim_C10 (p : Params) :
    (∀ e q, check_family_1_params p = (some e, q) → q = p) ∧
    (∀ q, check_family_1_params p = (none, q) →
      q.b11 = p.b11 ∧ q.b21 = p.b21 ∧ q.b32 = p.b32 ∧ q.c11 = p.c11 ∧
      q.c33 = p.c33 ∧ q.c34 = p.c34) ∧
    (∀ p' : Params, p.b11 = p'.b11 → p.b21 = p'.b21 → p.b32 = p'.b32 →
      p.c11 = p'.c11 → p.c33 = p'.c33 → p.c34 = p'.c34 →
      (check_family_1_params p).1 = (check_family_1_params p').1) := by
  refine ⟨?_, ?_, ?_⟩
  · intro e q h
    unfold check_family_1_params at h
    split_ifs at h
    all_goals rw [Prod.ext_iff] at h
    all_goals first
      | exact h.2.symm
      | exact Option.noConfusion h.1
  · intro q h
    unfold check_family_1_params at h
    split_ifs at h
    all_goals simp only [Prod.mk.injEq] at h
    all_goals first
      | exact Option.noConfusion h.1
      | (obtain ⟨-, h2⟩ := h; subst h2; exact ⟨rfl, rfl, rfl, rfl, rfl, rfl⟩)
  · intro p' e1 e2 e3 e4 e5 e6
    rw [check_family_1_fst, check_family_1_fst, e1, e2, e3, e5]

/-- Witness for C10: a throwing input returns its parameters unchanged,
a succeeding input keeps its six free slots, and two inputs agreeing on
the free slots produce the same check outcome. -/
theorem claim_C10_witness :
    (check_family_1_params famErrP).2 = famErrP ∧
    ((check_family_1_params baseP).2.b11 = baseP.b11 ∧
     (check_family_1_params baseP).2.b21 = baseP.b21 ∧
     (check_family_1_params baseP).2.b32 = baseP.b32 ∧
     (check_family_1_params baseP).2.c11 = baseP.c11 ∧
     (check_family_1_params baseP).2.c33 = baseP.c33 ∧
     (check_family_1_params baseP).2.c34 = baseP.c34) ∧
    (check_family_1_params baseP).1 = (check_family_1_params baseC21P).1 :=
  ⟨(claim_C10 famErrP).1 KuhnError.b21TooLarge _
      (Prod.ext_iff.mpr
        ⟨by rw [check_family_1_fst]; norm_num [famErrP, baseP], rfl⟩),
   (claim_C10 baseP).2.1 _
      (Prod.ext_iff.mpr
        ⟨by rw [check_family_1_fst]; norm_num [baseP], rfl⟩),
   (claim_C10 baseP).2.2 baseC21P rfl rfl rfl rfl rfl rfl⟩

end Kuhn3P
